import Mathlib

/-!
Shallow embedding of the maragudk/sqlite Go driver (src/sqlite.go) and
verification of the specified properties of its adaptation layer.

The native SQLite engine is an external collaborator reached through cgo.
It is modelled here by oracle structures: each native primitive the driver
calls (step, bind, column access, exec, open) is a field of an engine
record, an arbitrary function from its arguments to the status code or
datum the engine would return.  The driver functions are translated
line by line from src/sqlite.go over these oracles.

Go float64 values are never computed on by the driver, only forwarded
bit for bit across the FFI boundary, so their payload is modelled as an
opaque Int surrogate.  Go byte slices are modelled as List Nat.  Errors
built with fmt.Errorf and the %w verb form a wrap chain, modelled by the
GoError inductive below.
-/

namespace Sqlite

/-- Native status code SQLITE_OK. -/
def SQLITE_OK : Int := 0

/-- Native status code SQLITE_ROW (sqlite3_step has a row ready). -/
def SQLITE_ROW : Int := 100

/-- Native status code SQLITE_DONE (sqlite3_step has finished executing). -/
def SQLITE_DONE : Int := 101

/-- Native fundamental datatype code SQLITE_INTEGER. -/
def SQLITE_INTEGER : Int := 1

/-- Native fundamental datatype code SQLITE_FLOAT. -/
def SQLITE_FLOAT : Int := 2

/-- Native fundamental datatype code SQLITE_TEXT (SQLITE3_TEXT). -/
def SQLITE_TEXT : Int := 3

/-- Native fundamental datatype code SQLITE_BLOB. -/
def SQLITE_BLOB : Int := 4

/-- Native fundamental datatype code SQLITE_NULL. -/
def SQLITE_NULL : Int := 5

/-- A Go error value as built by this driver: either a leaf error
(errors.New) or a fmt.Errorf wrap of an inner error through the %w verb. -/
inductive GoError where
  | base (msg : String)
  | wrap (msg : String) (inner : GoError)
deriving DecidableEq, Repr

/-- The message of a Go error: fmt.Errorf with format `f ++ ": %w"` renders
the outer text, a colon and a space, then the message of the wrapped error. -/
def GoError.display : GoError → String
  | .base m => m
  | .wrap m inner => m ++ ": " ++ GoError.display inner

/-- Embedding of `errString` (src/sqlite.go): `errors.New(C.GoString(C.sqlite3_errstr(cCode)))`.
The native sqlite3_errstr table is the oracle `errstr`. -/
def errString (errstr : Int → String) (code : Int) : GoError :=
  GoError.base (errstr code)

/-- Embedding of `wrapErrorCode` (src/sqlite.go): formats the call-site
message and wraps `errString` of the native status code with %w. -/
def wrapErrorCode (msg : String) (errstr : Int → String) (code : Int) : GoError :=
  GoError.wrap msg (errString errstr code)

/-- Embedding of `wrapError` (src/sqlite.go): wraps an existing error with
call-site context through the %w verb. -/
def wrapError (msg : String) (e : GoError) : GoError :=
  GoError.wrap msg e

/-- A dynamically typed Go value handed to the driver as a driver.Value.
The closed Bound Value set is null, bool, int64, float64, []byte and
string; `other t` stands for a value of any unsupported dynamic type,
carrying the name that the %T verb would print for it. -/
inductive GoValue where
  | null
  | boolean (b : Bool)
  | int64 (v : Int)
  | float64 (payload : Int)
  | bytes (bs : List Nat)
  | str (s : String)
  | other (typeName : String)
deriving DecidableEq, Repr

/-- Whether a value is inside the closed Bound Value set handled by the
switch in `statement.bindArgs`. -/
def GoValue.supported : GoValue → Bool
  | .other _ => false
  | _ => true

/-- The word used for the value kind in the bind error messages of
`statement.bindArgs` ("error binding nil arg at position %v" and so on). -/
def bindKindName : GoValue → String
  | .null => "nil"
  | .boolean _ => "bool"
  | .int64 _ => "int64"
  | .float64 _ => "float64"
  | .bytes _ => "[]byte"
  | .str _ => "string"
  | .other t => t

/-- A call to one of the native binding primitives, with the 1-based
placeholder index and the payload the driver passes across the FFI. -/
inductive BindCall where
  | bindNull (idx : Nat)
  | bindInt64 (idx : Nat) (v : Int)
  | bindDouble (idx : Nat) (payload : Int)
  | bindBlob (idx : Nat) (content : List Nat) (len : Nat)
  | bindText (idx : Nat) (s : String) (len : Nat)
deriving DecidableEq, Repr

/-- The native binding call the switch in `statement.bindArgs` issues for a
value at native index `idx`, or none for the default (unsupported) case.
Blob length is `len(arg)` of the byte slice; text length is `len(arg)` of
the Go string, which is its UTF-8 byte size, with no terminator. -/
def encodeBind (idx : Nat) : GoValue → Option BindCall
  | .null => some (BindCall.bindNull idx)
  | .boolean b => some (BindCall.bindInt64 idx (if b then 1 else 0))
  | .int64 v => some (BindCall.bindInt64 idx v)
  | .float64 p => some (BindCall.bindDouble idx p)
  | .bytes bs => some (BindCall.bindBlob idx bs bs.length)
  | .str s => some (BindCall.bindText idx s s.utf8ByteSize)
  | .other _ => none

/-- Embedding of the loop of `statement.bindArgs` (src/sqlite.go), started
at Go loop index `i`.  The oracle `bindStatus` gives the native status each
binding primitive call would return.  The result is the list of native
binding calls actually issued, in order, and the error returned by
bindArgs, if any: a native failure wraps the status with the kind and the
0-based position, and the default switch case returns
`fmt.Errorf("unsupported arg type %T", arg)` and issues no call. -/
def bindArgsFrom (bindStatus : BindCall → Int) (errstr : Int → String) :
    Nat → List GoValue → List BindCall × Option GoError
  | _, [] => ([], none)
  | i, arg :: rest =>
    match encodeBind (i + 1) arg with
    | some call =>
      let code := bindStatus call
      if code ≠ SQLITE_OK then
        ([call], some (wrapErrorCode
          ("error binding " ++ bindKindName arg ++ " arg at position " ++ toString i)
          errstr code))
      else
        let r := bindArgsFrom bindStatus errstr (i + 1) rest
        (call :: r.1, r.2)
    | none => ([], some (GoError.base ("unsupported arg type " ++ bindKindName arg)))

/-- Embedding of `statement.bindArgs` (src/sqlite.go): the loop over the
argument list with Go loop index starting at 0. -/
def bindArgs (bindStatus : BindCall → Int) (errstr : Int → String)
    (args : List GoValue) : List BindCall × Option GoError :=
  bindArgsFrom bindStatus errstr 0 args

/-- Spec-side definition, following the words of the specification
(section 4.2, bind): native placeholder indices are 1-based
(index = position + 1), and the dynamic type of the value selects the
binding primitive: null binds null; boolean binds as 64-bit integer 0 or 1;
64-bit integer binds int64; 64-bit float binds double; blob binds blob with
its explicit byte length; text binds text with the byte length of the
string, not including any terminator. -/
def specBindCall (pos : Nat) : GoValue → Option BindCall
  | .null => some (BindCall.bindNull (pos + 1))
  | .boolean b => some (BindCall.bindInt64 (pos + 1) (if b then 1 else 0))
  | .int64 v => some (BindCall.bindInt64 (pos + 1) v)
  | .float64 p => some (BindCall.bindDouble (pos + 1) p)
  | .bytes bs => some (BindCall.bindBlob (pos + 1) bs bs.length)
  | .str s => some (BindCall.bindText (pos + 1) s s.utf8ByteSize)
  | .other _ => none

/-- Spec-side definition: the ordered list of binding calls the
specification prescribes for a sequence of supported values whose first
element sits at 0-based position `pos`. -/
def specCallsFrom (pos : Nat) : List GoValue → List BindCall
  | [] => []
  | v :: rest =>
    match specBindCall pos v with
    | some call => call :: specCallsFrom (pos + 1) rest
    | none => specCallsFrom (pos + 1) rest

/-!
Result cursor: embedding of the `rows` struct and its Columns, Close and
Next methods (src/sqlite.go).
-/

/-- A value written into a destination slot by `rows.Next`, with the
provenance of byte-sequence values made explicit: `blob (some p) content`
is a Go byte slice built over the engine-owned row buffer at native
pointer `p` by the unsafe cast-and-reslice
`(*[maxSlice]byte)(unsafe.Pointer(p))[:n]` — an aliasing view, not a copy —
while `blob none []` is the nil byte slice the code leaves for a
zero-length column. -/
inductive ColValue where
  | int64 (v : Int)
  | float64 (payload : Int)
  | blob (enginePtr : Option Nat) (content : List Nat)
  | null
deriving DecidableEq, Repr

/-- True when the value holds a Go slice whose backing memory is the
engine-owned row buffer rather than newly allocated driver memory. -/
def ColValue.aliasesEngineMemory : ColValue → Bool
  | .blob (some _) _ => true
  | _ => false

/-- Oracle model of the native engine surface consumed by `rows.Next`:
`step n` is the status the n-th sqlite3_step call on the statement
returns; the column oracles give, for the current row, the values of
sqlite3_column_type, sqlite3_column_int64, sqlite3_column_double and
sqlite3_column_bytes at a column index.  `colBlobPtr i` is the identity of
the engine-owned buffer returned by sqlite3_column_blob for column `i`,
and `colBlobData i` is the `colBytes i` bytes stored there. -/
structure RowEngine where
  step : Nat → Int
  colType : Nat → Int
  colInt64 : Nat → Int
  colDouble : Nat → Int
  colBytes : Nat → Nat
  colBlobPtr : Nat → Nat
  colBlobData : Nat → List Nat

/-- The value the switch in `rows.Next` writes into `dest[i]` for column
`i`, or none for the default case (an unrecognized native column type).
The blob/text branch reslices the engine buffer without copying when
`n > 0` and otherwise leaves the nil slice. -/
def columnValue (eng : RowEngine) (i : Nat) : Option ColValue :=
  let t := eng.colType i
  if t = SQLITE_INTEGER then some (ColValue.int64 (eng.colInt64 i))
  else if t = SQLITE_FLOAT then some (ColValue.float64 (eng.colDouble i))
  else if t = SQLITE_BLOB ∨ t = SQLITE_TEXT then
    if 0 < eng.colBytes i then
      some (ColValue.blob (some (eng.colBlobPtr i)) (eng.colBlobData i))
    else
      some (ColValue.blob none [])
  else if t = SQLITE_NULL then some ColValue.null
  else none

/-- A native column type code the switch in `rows.Next` recognizes. -/
def recognizedType (t : Int) : Prop :=
  t = SQLITE_INTEGER ∨ t = SQLITE_FLOAT ∨ t = SQLITE_BLOB ∨ t = SQLITE_TEXT ∨ t = SQLITE_NULL

instance (t : Int) : Decidable (recognizedType t) := by
  unfold recognizedType
  infer_instance

/-- Embedding of the `for i := range dest` loop of `rows.Next`, decoding
columns from index `i` on into the remaining destination slots.  On an
unrecognized column type the loop returns
`fmt.Errorf("unexpected column type %v", cT)` at once, leaving the current
slot and the slots after it with their previous values. -/
def decodeFrom (eng : RowEngine) : Nat → List ColValue → List ColValue × Option GoError
  | _, [] => ([], none)
  | i, old :: rest =>
    match columnValue eng i with
    | some v =>
      let r := decodeFrom eng (i + 1) rest
      (v :: r.1, r.2)
    | none =>
      (old :: rest, some (GoError.base ("unexpected column type " ++ toString (eng.colType i))))

/-- Embedding of the `rows` struct (src/sqlite.go): the statement
reference (`live` is whether it is non-nil), the query text of the owning
statement, how many sqlite3_step calls have been made through this
statement, and the `err` field.  Nothing in the source ever assigns to
`err`; it keeps its zero value nil. -/
structure Cursor where
  live : Bool
  query : String
  stepsDone : Nat
  err : Option GoError
deriving DecidableEq, Repr

/-- A fresh cursor as built by `statement.Query`: `&rows{statement: s}`,
with the `err` field at its zero value nil and no step calls made yet. -/
def newCursor (query : String) : Cursor :=
  { live := true, query := query, stepsDone := 0, err := none }

/-- The outcome of one `rows.Next` call: `eof` is the io.EOF sentinel, the
canonical end-of-sequence signal of the driver interface; `ok` is a nil
error with a populated row; `fail e` is a non-nil error `e`. -/
inductive StepOutcome where
  | eof
  | ok
  | fail (e : GoError)
deriving DecidableEq, Repr

/-- Embedding of `rows.Next` (src/sqlite.go).  It calls sqlite3_step
exactly once (the model consumes one index of the `step` oracle and bumps
`stepsDone`); SQLITE_DONE returns io.EOF; any status other than SQLITE_ROW
returns `wrapErrorCode` with the query text; SQLITE_ROW runs the decode
loop over the destination slots.  The `err` field of the cursor is not
touched on any path, mirroring the source. -/
def cursorNext (eng : RowEngine) (errstr : Int → String) (c : Cursor)
    (dest : List ColValue) : Cursor × List ColValue × StepOutcome :=
  let code := eng.step c.stepsDone
  let c2 : Cursor := { c with stepsDone := c.stepsDone + 1 }
  if code = SQLITE_DONE then (c2, dest, StepOutcome.eof)
  else if code ≠ SQLITE_ROW then
    (c2, dest, StepOutcome.fail (wrapErrorCode
      ("error getting next row for query \"" ++ c.query ++ "\"") errstr code))
  else
    let r := decodeFrom eng 0 dest
    match r.2 with
    | some e => (c2, r.1, StepOutcome.fail e)
    | none => (c2, r.1, StepOutcome.ok)

/-- Embedding of `rows.Close` (src/sqlite.go): sets the statement
reference to nil and returns the `err` field. -/
def cursorClose (c : Cursor) : Cursor × Option GoError :=
  ({ c with live := false }, c.err)

/-!
Statement execution for effect: embedding of `statement.Exec`
(src/sqlite.go).
-/

/-- Oracle model of the native surface consumed by `statement.Exec`:
`bindStatus` gives the status of each binding primitive call, `step n` the
status of the n-th sqlite3_step call on the statement, and
`lastInsertRowid` and `changes` the engine-wide per-connection values that
sqlite3_last_insert_rowid and sqlite3_changes report on the owning
connection handle immediately after this step. -/
structure ExecEngine where
  bindStatus : BindCall → Int
  step : Nat → Int
  lastInsertRowid : Int
  changes : Int

/-- Embedding of the `result` struct (src/sqlite.go). -/
structure GoResult where
  lastInsertID : Int
  rowsAffected : Int
deriving DecidableEq, Repr

/-- The step-and-read tail of `statement.Exec`: one sqlite3_step call; a
status that is neither SQLITE_DONE nor SQLITE_ROW is wrapped as an error
with the query text; otherwise the result is built from the last-insert
rowid and the change count of the owning connection handle. -/
def stmtExecStep (eng : ExecEngine) (errstr : Int → String) (query : String)
    (stepsDone : Nat) : Nat × Except GoError GoResult :=
  let code := eng.step stepsDone
  if code ≠ SQLITE_DONE ∧ code ≠ SQLITE_ROW then
    (stepsDone + 1, Except.error (wrapErrorCode
      ("error executing query \"" ++ query ++ "\"") errstr code))
  else
    (stepsDone + 1, Except.ok { lastInsertID := eng.lastInsertRowid,
                                rowsAffected := eng.changes })

/-- Embedding of `statement.Exec` (src/sqlite.go).  Arguments are bound
through `bindArgs` only when the sequence is non-empty; a binding error is
wrapped with the query text and returned before any step takes place (the
returned step count is unchanged).  Otherwise the statement is stepped
exactly once and the result read as in `stmtExecStep`. -/
def stmtExec (eng : ExecEngine) (errstr : Int → String) (query : String)
    (args : List GoValue) (stepsDone : Nat) : Nat × Except GoError GoResult :=
  if 0 < args.length then
    match (bindArgs eng.bindStatus errstr args).2 with
    | some e =>
      (stepsDone, Except.error (wrapError
        ("error binding args while executing query \"" ++ query ++ "\"") e))
    | none => stmtExecStep eng errstr query stepsDone
  else
    stmtExecStep eng errstr query stepsDone

/-!
Driver registration defaults and connection opening: embedding of
`RegisterDriver` and `d.Open` (src/sqlite.go).
-/

/-- The logging sink of the options: the driver-supplied discarding logger
or a caller-supplied one (identified opaquely). -/
inductive LogSink where
  | discard
  | custom (id : Nat)
deriving DecidableEq, Repr

/-- Embedding of the `Options` struct (src/sqlite.go).  `busyTimeout` is
the *time.Duration pointer in nanoseconds (none for nil), `foreignKeys`
the *bool pointer, `journalMode` the JournalMode string with "" for the
zero value, `logger` the logger field with none for nil, and `name` the
registration name with "" for the zero value. -/
structure Options where
  busyTimeout : Option Int
  foreignKeys : Option Bool
  journalMode : String
  logger : Option LogSink
  name : String
deriving DecidableEq, Repr

/-- The Go zero value `Options{}`. -/
def emptyOptions : Options :=
  { busyTimeout := none, foreignKeys := none, journalMode := "",
    logger := none, name := "" }

/-- Embedding of the defaulting steps of `RegisterDriver` (src/sqlite.go),
in source order: name "sqlite", discarding logger, journal mode
JournalModeWAL = "wal", busy timeout 5 * time.Second = 5000000000 ns,
foreign keys enabled.  The resulting snapshot is what is stored in the
registered driver value `d` and is the only options value `d.Open` ever
reads; nothing in the source writes to it afterwards. -/
def registerDefaults (opts : Options) : Options :=
  let o1 := if opts.name = "" then { opts with name := "sqlite" } else opts
  let o2 := if o1.logger = none then { o1 with logger := some LogSink.discard } else o1
  let o3 := if o2.journalMode = "" then { o2 with journalMode := "wal" } else o2
  let o4 := if o3.busyTimeout = none then { o3 with busyTimeout := some 5000000000 } else o3
  if o4.foreignKeys = none then { o4 with foreignKeys := some true } else o4

/-- Embedding of Go `time.Duration.Milliseconds`: nanoseconds divided by
one million, truncating toward zero (the values used here are
nonnegative, where Lean Int division agrees with the Go one). -/
def durationMilliseconds (ns : Int) : Int := ns / 1000000

/-- The %v rendering of the value of each pragma in the map literal of
`d.Open`: the JournalMode string for journal_mode, the decimal
milliseconds of the busy timeout for busy_timeout, and true/false for
foreign_keys.  `getD` defaults are unreachable for options produced by
`registerDefaults`, which fills every pointer. -/
def pragmaValue (o : Options) : String → String
  | "journal_mode" => o.journalMode
  | "busy_timeout" => toString (durationMilliseconds (o.busyTimeout.getD 0))
  | "foreign_keys" => if o.foreignKeys.getD false then "true" else "false"
  | _ => ""

/-- The query text `pragma <k> = <v>` that `d.Open` interpolates for
pragma `k` and hands to `connection.exec`. -/
def pragmaQuery (o : Options) (k : String) : String :=
  "pragma " ++ k ++ " = " ++ pragmaValue o k

/-- Oracle model of the native surface consumed by `d.Open`:
`openStatus` is the sqlite3_open_v2 result, `handleAllocated` whether a
handle was allocated even on failure (the `cC != nil` check), and
`execStatus` the sqlite3_exec status for a given query text. -/
structure OpenEngine where
  openStatus : Int
  handleAllocated : Bool
  execStatus : String → Int

/-- Embedding of `connection.exec` (src/sqlite.go): runs the query through
sqlite3_exec and wraps a non-OK status with the query text. -/
def connExec (eng : OpenEngine) (errstr : Int → String) (query : String) :
    Option GoError :=
  let code := eng.execStatus query
  if code ≠ SQLITE_OK then
    some (wrapErrorCode ("error running query \"" ++ query ++ "\"") errstr code)
  else none

/-- Embedding of the pragma loop of `d.Open` for one iteration order of
the pragmas map: each pragma is executed through `connection.exec`, and
the first failure is wrapped as `error setting pragma <k>` and returned at
once. -/
def applyPragmas (eng : OpenEngine) (errstr : Int → String) (o : Options) :
    List String → Option GoError
  | [] => none
  | k :: rest =>
    match connExec eng errstr (pragmaQuery o k) with
    | some e => some (wrapError ("error setting pragma " ++ k) e)
    | none => applyPragmas eng errstr o rest

/-- What `d.Open` returns and the state of the native connection handle at
that moment: whether a connection value was returned, the error if any,
and whether the native handle is still open when Open returns. -/
structure OpenOutcome where
  success : Bool
  err : Option GoError
  handleOpen : Bool
deriving DecidableEq, Repr

/-- Embedding of `d.Open` (src/sqlite.go) over a given iteration order of
the pragmas map (Go map iteration order is unspecified; the theorems
quantify over it).  On a native open failure the allocated handle, if any,
is closed and the wrapped native error returned.  On a pragma failure the
error is returned with the native connection handle left open: the source
returns without calling sqlite3_close_v2 on that path. -/
def dOpen (eng : OpenEngine) (errstr : Int → String) (o : Options)
    (order : List String) : OpenOutcome :=
  if eng.openStatus ≠ SQLITE_OK then
    { success := false,
      err := some (wrapErrorCode "error opening connection" errstr eng.openStatus),
      handleOpen := false }
  else
    match applyPragmas eng errstr o order with
    | some e => { success := false, err := some e, handleOpen := true }
    | none => { success := true, err := none, handleOpen := true }

/-!
Connection: `NumInput` and `Begin` (src/sqlite.go).
-/

/-- Embedding of `statement.NumInput` (src/sqlite.go): the Go int
conversion of the sqlite3_bind_parameter_count result, which is a
nonnegative native count (the index of the largest parameter of the
prepared statement), modelled as a Nat. -/
def numInput (parameterCount : Nat) : Int :=
  Int.ofNat parameterCount

/-- Embedding of the `connection` struct (src/sqlite.go): the state of
its native handle pointer `cC`. -/
structure Connection where
  handleOpen : Bool
deriving DecidableEq, Repr

/-- The driver.Tx transaction value a Begin implementation would return;
this driver never constructs one. -/
inductive Tx where
  | mk
deriving DecidableEq, Repr

/-- Outcome of a Go call that may panic instead of returning. -/
inductive PanicOr (α : Type) where
  | panics (msg : String)
  | value (v : α)
deriving DecidableEq, Repr

/-- Embedding of `connection.Begin` (src/sqlite.go): the body is the
single statement `panic("implement Begin")`, so the call panics
unconditionally; the connection passed back unchanged records that no
state is modified before the panic. -/
def connectionBegin (c : Connection) : Connection × PanicOr Tx :=
  (c, PanicOr.panics "implement Begin")

/-!
Concrete engine instances used to evaluate the embedded driver code at
specific inputs.
-/

/-- A binding oracle on which every native binding primitive succeeds. -/
def okStatus : BindCall → Int := fun _ => SQLITE_OK

/-- A concrete sqlite3_errstr table rendering the status code. -/
def errstr0 : Int → String := fun code => "native status " ++ toString code

/-- A binding oracle that fails with native status 5 (SQLITE_BUSY) on the
call binding int64 9 at native index 2 and succeeds on everything else. -/
def failOnSecond : BindCall → Int :=
  fun call => if call = BindCall.bindInt64 2 9 then 5 else SQLITE_OK

/-- A row engine whose step always reports native status 5 (SQLITE_BUSY). -/
def busyEngine : RowEngine :=
  { step := fun _ => 5, colType := fun _ => 0, colInt64 := fun _ => 0,
    colDouble := fun _ => 0, colBytes := fun _ => 0, colBlobPtr := fun _ => 0,
    colBlobData := fun _ => [] }

/-- A row engine with one row ready whose single column is a 3-byte text
value stored in the engine-owned buffer at native pointer 42. -/
def textEngine : RowEngine :=
  { step := fun _ => 100, colType := fun _ => 3, colInt64 := fun _ => 0,
    colDouble := fun _ => 0, colBytes := fun _ => 3, colBlobPtr := fun _ => 42,
    colBlobData := fun _ => [102, 111, 111] }

/-- A row engine with one row ready whose column 0 is the integer 42 and
whose other columns are null. -/
def rowEngine1 : RowEngine :=
  { step := fun _ => 100, colType := fun i => if i = 0 then 1 else 5,
    colInt64 := fun _ => 42, colDouble := fun _ => 0, colBytes := fun _ => 0,
    colBlobPtr := fun _ => 0, colBlobData := fun _ => [] }

/-- An open engine whose native open succeeds and on which exactly the
busy_timeout pragma statement fails with native status 1 (SQLITE_ERROR). -/
def openEngine1 : OpenEngine :=
  { openStatus := 0, handleAllocated := true,
    execStatus := fun q => if q = "pragma busy_timeout = 5000" then 1 else 0 }

/-- An exec engine on which binding succeeds, the step reports SQLITE_DONE,
and the connection-wide counters read 7 and 3 after the step. -/
def execEngine1 : ExecEngine :=
  { bindStatus := fun _ => SQLITE_OK, step := fun _ => 101,
    lastInsertRowid := 7, changes := 3 }

/-- An exec engine on which binding succeeds and the step reports native
status 19 (SQLITE_CONSTRAINT). -/
def execEngine2 : ExecEngine :=
  { bindStatus := fun _ => SQLITE_OK, step := fun _ => 19,
    lastInsertRowid := 0, changes := 0 }

/-!
Helper lemmas.
-/

/-- Refinement bridge: the binding call of the source switch at native
index position + 1 is the call the specification table prescribes. -/
theorem specBindCall_eq_encodeBind (pos : Nat) (v : GoValue) :
    specBindCall pos v = encodeBind (pos + 1) v := by
  cases v <;> rfl

/-- A supported value always has a binding call. -/
theorem encodeBind_isSome (idx : Nat) (v : GoValue) (hv : v.supported = true) :
    ∃ call, encodeBind idx v = some call := by
  cases v
  case other t => simp [GoValue.supported] at hv
  all_goals exact ⟨_, rfl⟩

/-- Composition of the bindArgs loop: after a fully successful supported
prefix, the loop continues on the rest with the position shifted by the
length of the prefix. -/
theorem bindArgsFrom_append (bs : BindCall → Int) (es : Int → String) :
    ∀ (pre rest : List GoValue) (i : Nat),
      (∀ u ∈ pre, u.supported = true) →
      (bindArgsFrom bs es i pre).2 = none →
      bindArgsFrom bs es i (pre ++ rest) =
        ((bindArgsFrom bs es i pre).1 ++ (bindArgsFrom bs es (i + pre.length) rest).1,
         (bindArgsFrom bs es (i + pre.length) rest).2) := by
  intro pre
  induction pre with
  | nil =>
    intro rest i _ _
    simp [bindArgsFrom]
  | cons u pre2 ih =>
    intro rest i hsup hnone
    obtain ⟨cu, hcu⟩ := encodeBind_isSome (i + 1) u (hsup u (by simp))
    by_cases hcode : bs cu = SQLITE_OK
    · have hnone2 : (bindArgsFrom bs es (i + 1) pre2).2 = none := by
        simpa [bindArgsFrom, hcu, hcode] using hnone
      have hrec := ih rest (i + 1) (fun w hw => hsup w (by simp [hw])) hnone2
      have hlen : i + 1 + pre2.length = i + (pre2.length + 1) := by omega
      simp [bindArgsFrom, hcu, hcode, hrec, hlen]
    · exfalso
      simp [bindArgsFrom, hcu, hcode] at hnone

/-- On an engine on which every binding primitive succeeds, the bindArgs
loop over supported values issues exactly the calls the specification
table prescribes and returns no error. -/
theorem bindArgsFrom_all_ok (bs : BindCall → Int) (es : Int → String)
    (hok : ∀ call, bs call = SQLITE_OK) :
    ∀ (args : List GoValue) (i : Nat), (∀ v ∈ args, v.supported = true) →
      bindArgsFrom bs es i args = (specCallsFrom i args, none) := by
  intro args
  induction args with
  | nil => intro i _; rfl
  | cons v rest ih =>
    intro i hsup
    obtain ⟨cv, hcv⟩ := encodeBind_isSome (i + 1) v (hsup v (by simp))
    have hspec : specBindCall i v = some cv := by
      rw [specBindCall_eq_encodeBind]
      exact hcv
    simp [bindArgsFrom, specCallsFrom, hcv, hspec, hok cv,
      ih (i + 1) (fun w hw => hsup w (by simp [hw]))]

/-- The decode switch recognizes a column type exactly when it is one of
the five native fundamental datatype codes. -/
theorem columnValue_isSome_iff (eng : RowEngine) (i : Nat) :
    (columnValue eng i).isSome = true ↔ recognizedType (eng.colType i) := by
  unfold columnValue recognizedType SQLITE_INTEGER SQLITE_FLOAT SQLITE_BLOB SQLITE_TEXT SQLITE_NULL
  by_cases h1 : eng.colType i = 1
  · simp [h1]
  · by_cases h2 : eng.colType i = 2
    · simp [h1, h2]
    · by_cases h3 : eng.colType i = 4 ∨ eng.colType i = 3
      · rcases h3 with h3 | h3 <;> by_cases hn : 0 < eng.colBytes i <;> simp [h1, h2, h3, hn]
      · by_cases h4 : eng.colType i = 5
        · simp [h1, h2, h3, h4]
        · push_neg at h3
          simp [h1, h2, h3.1, h3.2, h4]

/-- An integer-typed column decodes to the sqlite3_column_int64 value. -/
theorem columnValue_int (eng : RowEngine) (i : Nat)
    (h : eng.colType i = SQLITE_INTEGER) :
    columnValue eng i = some (ColValue.int64 (eng.colInt64 i)) := by
  unfold SQLITE_INTEGER at h
  unfold columnValue SQLITE_INTEGER
  simp [h]

/-- A float-typed column decodes to the sqlite3_column_double value. -/
theorem columnValue_float (eng : RowEngine) (i : Nat)
    (h : eng.colType i = SQLITE_FLOAT) :
    columnValue eng i = some (ColValue.float64 (eng.colDouble i)) := by
  unfold SQLITE_FLOAT at h
  unfold columnValue SQLITE_INTEGER SQLITE_FLOAT
  simp [h]

/-- A null-typed column decodes to the null value. -/
theorem columnValue_null (eng : RowEngine) (i : Nat)
    (h : eng.colType i = SQLITE_NULL) :
    columnValue eng i = some ColValue.null := by
  unfold SQLITE_NULL at h
  unfold columnValue SQLITE_INTEGER SQLITE_FLOAT SQLITE_BLOB SQLITE_TEXT SQLITE_NULL
  simp [h]

/-- A text- or blob-typed column of positive length decodes to a byte
slice aliasing the engine buffer; a zero-length one to the nil slice. -/
theorem columnValue_blob (eng : RowEngine) (i : Nat)
    (h : eng.colType i = SQLITE_BLOB ∨ eng.colType i = SQLITE_TEXT) :
    columnValue eng i =
      some (if 0 < eng.colBytes i then
              ColValue.blob (some (eng.colBlobPtr i)) (eng.colBlobData i)
            else ColValue.blob none []) := by
  unfold SQLITE_BLOB SQLITE_TEXT at h
  unfold columnValue SQLITE_INTEGER SQLITE_FLOAT SQLITE_BLOB SQLITE_TEXT
  rcases h with h | h <;>
    by_cases hn : 0 < eng.colBytes i <;>
      simp [h, hn]

/-- The decode loop preserves the width of the destination. -/
theorem decodeFrom_length (eng : RowEngine) :
    ∀ (dest : List ColValue) (i : Nat),
      ((decodeFrom eng i dest).1).length = dest.length := by
  intro dest
  induction dest with
  | nil => intro i; rfl
  | cons old rest ih =>
    intro i
    cases h : columnValue eng i with
    | some v => simp [decodeFrom, h, ih]
    | none => simp [decodeFrom, h]

/-- If every column in range is of a recognized type, the decode loop
returns no error. -/
theorem decodeFrom_err_none (eng : RowEngine) :
    ∀ (dest : List ColValue) (i : Nat),
      (∀ k, k < dest.length → (columnValue eng (i + k)).isSome = true) →
      (decodeFrom eng i dest).2 = none := by
  intro dest
  induction dest with
  | nil => intro i _; rfl
  | cons old rest ih =>
    intro i hall
    have h0 : (columnValue eng i).isSome = true := by
      simpa using hall 0 (by simp)
    cases h : columnValue eng i with
    | none => simp [h] at h0
    | some v =>
      have hrest : ∀ k, k < rest.length → (columnValue eng (i + 1 + k)).isSome = true := by
        intro k hk
        have hmem := hall (k + 1) (by simpa using Nat.succ_lt_succ hk)
        have heq : i + (k + 1) = i + 1 + k := by omega
        rw [heq] at hmem
        exact hmem
      simp [decodeFrom, h, ih (i + 1) hrest]

/-- If every column up to and including position j is of a recognized
type, slot j of the decoded destination holds the decoded value of column
j (whatever happens at later columns). -/
theorem decodeFrom_get_upto (eng : RowEngine) :
    ∀ (dest : List ColValue) (i j : Nat), j < dest.length →
      (∀ k, k ≤ j → (columnValue eng (i + k)).isSome = true) →
      ((decodeFrom eng i dest).1)[j]? = columnValue eng (i + j) := by
  intro dest
  induction dest with
  | nil => intro i j hj; simp at hj
  | cons old rest ih =>
    intro i j hj hupto
    have h0 : (columnValue eng i).isSome = true := by
      simpa using hupto 0 (Nat.zero_le j)
    cases h : columnValue eng i with
    | none => simp [h] at h0
    | some v =>
      cases j with
      | zero => simp [decodeFrom, h]
      | succ j2 =>
        have hj2 : j2 < rest.length := by simpa using Nat.lt_of_succ_lt_succ hj
        have hupto2 : ∀ k, k ≤ j2 → (columnValue eng (i + 1 + k)).isSome = true := by
          intro k hk
          have hmem := hupto (k + 1) (Nat.succ_le_succ hk)
          have heq : i + (k + 1) = i + 1 + k := by omega
          rw [heq] at hmem
          exact hmem
        have hrec := ih (i + 1) j2 hj2 hupto2
        have heq : i + 1 + j2 = i + (j2 + 1) := by omega
        rw [heq] at hrec
        simp [decodeFrom, h, hrec]

/-- If the first unrecognized column type in range sits at position j, the
decode loop returns the unexpected-column-type error for column j. -/
theorem decodeFrom_first_bad (eng : RowEngine) :
    ∀ (dest : List ColValue) (i j : Nat), j < dest.length →
      (∀ k, k < j → (columnValue eng (i + k)).isSome = true) →
      columnValue eng (i + j) = none →
      (decodeFrom eng i dest).2 =
        some (GoError.base ("unexpected column type " ++ toString (eng.colType (i + j)))) := by
  intro dest
  induction dest with
  | nil => intro i j hj; simp at hj
  | cons old rest ih =>
    intro i j hj hlt hbad
    cases j with
    | zero =>
      have h : columnValue eng i = none := by simpa using hbad
      simp [decodeFrom, h]
    | succ j2 =>
      have h0 : (columnValue eng i).isSome = true := by
        simpa using hlt 0 (Nat.succ_pos j2)
      cases h : columnValue eng i with
      | none => simp [h] at h0
      | some v =>
        have hj2 : j2 < rest.length := by simpa using Nat.lt_of_succ_lt_succ hj
        have hlt2 : ∀ k, k < j2 → (columnValue eng (i + 1 + k)).isSome = true := by
          intro k hk
          have hmem := hlt (k + 1) (Nat.succ_lt_succ hk)
          have heq : i + (k + 1) = i + 1 + k := by omega
          rw [heq] at hmem
          exact hmem
        have hbad2 : columnValue eng (i + 1 + j2) = none := by
          have heq : i + 1 + j2 = i + (j2 + 1) := by omega
          rw [heq]
          exact hbad
        have hrec := ih (i + 1) j2 hj2 hlt2 hbad2
        have heq : i + 1 + j2 = i + (j2 + 1) := by omega
        rw [heq] at hrec
        simp [decodeFrom, h, hrec]

/-- The pragma loop surfaces the first failing pragma of the iteration
order, wrapped with its name and the exec error for its query text. -/
theorem applyPragmas_fail (eng : OpenEngine) (es : Int → String) (o : Options) :
    ∀ order : List String,
      (∃ k ∈ order, eng.execStatus (pragmaQuery o k) ≠ SQLITE_OK) →
      ∃ k ∈ order, eng.execStatus (pragmaQuery o k) ≠ SQLITE_OK ∧
        applyPragmas eng es o order =
          some (GoError.wrap ("error setting pragma " ++ k)
            (GoError.wrap ("error running query \"" ++ pragmaQuery o k ++ "\"")
              (GoError.base (es (eng.execStatus (pragmaQuery o k)))))) := by
  intro order
  induction order with
  | nil =>
    rintro ⟨k, hk, -⟩
    simp at hk
  | cons k0 rest ih =>
    rintro ⟨k, hk, hbad⟩
    by_cases h0 : eng.execStatus (pragmaQuery o k0) = SQLITE_OK
    · have hk2 : k ∈ rest := by
        rcases List.mem_cons.mp hk with he | hm
        · subst he
          exact absurd h0 hbad
        · exact hm
      obtain ⟨k2, hk2m, hbad2, happ⟩ := ih ⟨k, hk2, hbad⟩
      refine ⟨k2, List.mem_cons_of_mem _ hk2m, hbad2, ?_⟩
      simp [applyPragmas, connExec, h0, happ]
    · refine ⟨k0, List.mem_cons_self _ _, h0, ?_⟩
      simp [applyPragmas, connExec, h0, wrapErrorCode, wrapError, errString]

/-- The first projection of the exec step tail is always one more step. -/
theorem stmtExecStep_fst (eng : ExecEngine) (es : Int → String) (q : String)
    (k : Nat) : (stmtExecStep eng es q k).1 = k + 1 := by
  by_cases h : eng.step k ≠ SQLITE_DONE ∧ eng.step k ≠ SQLITE_ROW <;>
    simp [stmtExecStep, h]

/-- On a SQLITE_ROW status, `rows.Next` runs the decode loop: the
populated destination is its first component and the outcome reflects its
error, if any. -/
theorem cursorNext_row (eng : RowEngine) (es : Int → String) (c : Cursor)
    (dest : List ColValue) (hstep : eng.step c.stepsDone = SQLITE_ROW) :
    (cursorNext eng es c dest).2.1 = (decodeFrom eng 0 dest).1
    ∧ (cursorNext eng es c dest).2.2 =
        (match (decodeFrom eng 0 dest).2 with
         | some e => StepOutcome.fail e
         | none => StepOutcome.ok) := by
  cases hd : (decodeFrom eng 0 dest).2 <;>
    simp [cursorNext, hstep, hd, SQLITE_ROW, SQLITE_DONE]

/-!
Claim theorems.
-/

/-- C4 counterexample: the unsupported-type error of `statement.bindArgs`
does not name the offending position.  The same error value is returned
whether the value of unsupported dynamic type sits at position 1 (after a
supported value) or at position 0, and its message contains neither digit
of those positions, so no reading of the error can identify the position,
contrary to the claim. -/
theorem C4_counterexample_position_not_named :
    (bindArgs okStatus errstr0 [GoValue.int64 7, GoValue.other "time.Time"]).2
        = some (GoError.base "unsupported arg type time.Time")
    ∧ (bindArgs okStatus errstr0 [GoValue.other "time.Time"]).2
        = (bindArgs okStatus errstr0 [GoValue.int64 7, GoValue.other "time.Time"]).2
    ∧ ('1' ∉ (GoError.display (GoError.base "unsupported arg type time.Time")).data
       ∧ '0' ∉ (GoError.display (GoError.base "unsupported arg type time.Time")).data) := by
  refine ⟨by decide, by decide, by decide, by decide⟩

/-- C4 (amended): if some value of the sequence has a dynamic type outside
the closed Bound Value set and every value before the first such one binds
successfully, bindArgs fails with the error
`fmt.Errorf("unsupported arg type %T", arg)`, which names the offending
dynamic type but not the offending position. -/
theorem C4_unsupported_type_error (bs : BindCall → Int) (es : Int → String)
    (pre : List GoValue) (t : String) (post : List GoValue)
    (hsup : ∀ u ∈ pre, u.supported = true)
    (hpre : (bindArgs bs es pre).2 = none) :
    (bindArgs bs es (pre ++ GoValue.other t :: post)).2 =
      some (GoError.base ("unsupported arg type " ++ t)) := by
  unfold bindArgs at *
  rw [bindArgsFrom_append bs es pre (GoValue.other t :: post) 0 hsup hpre]
  simp [bindArgsFrom, encodeBind, bindKindName]

/-- C4 witness: the amended theorem applied at a concrete input. -/
theorem C4_unsupported_type_error_witness :
    (bindArgs okStatus errstr0 [GoValue.str "x", GoValue.other "time.Time", GoValue.int64 3]).2
      = some (GoError.base "unsupported arg type time.Time") := by
  have h := C4_unsupported_type_error okStatus errstr0 [GoValue.str "x"] "time.Time"
    [GoValue.int64 3] (by decide) (by decide)
  exact h

/-- C5: `statement.bindArgs` iterates the values in order with 1-based
native placeholder indices, selecting the binding primitive by dynamic
type exactly as the specification table prescribes (null binds null,
boolean binds int64 0 or 1, int64 binds int64, float64 binds double, blob
binds blob with its explicit byte length, text binds text with the UTF-8
byte length of the string and no terminator); and a native binding failure
at any position aborts the whole bind with the native status and the
0-based position attached, after having issued only the calls up to and
including the failing one. -/
theorem C5_bind_iteration (bs : BindCall → Int) (es : Int → String) :
    (∀ args : List GoValue, (∀ v ∈ args, v.supported = true) →
      (∀ call, bs call = SQLITE_OK) →
      bindArgs bs es args = (specCallsFrom 0 args, none))
    ∧ (∀ (pre : List GoValue) (v : GoValue) (post : List GoValue) (call : BindCall),
        (∀ u ∈ pre, u.supported = true) →
        (bindArgs bs es pre).2 = none →
        specBindCall pre.length v = some call →
        bs call ≠ SQLITE_OK →
        bindArgs bs es (pre ++ v :: post) =
          ((bindArgs bs es pre).1 ++ [call],
           some (GoError.wrap
             ("error binding " ++ bindKindName v ++ " arg at position " ++ toString pre.length)
             (GoError.base (es (bs call)))))) := by
  constructor
  · intro args hsup hok
    exact bindArgsFrom_all_ok bs es hok args 0 hsup
  · intro pre v post call hsup hpre hcall hbad
    unfold bindArgs at *
    rw [bindArgsFrom_append bs es pre (v :: post) 0 hsup hpre]
    rw [specBindCall_eq_encodeBind] at hcall
    simp [bindArgsFrom, hcall, hbad, wrapErrorCode, errString]

/-- C5 witness: one value of each supported kind bound in order on an
all-succeeding engine, and a concrete aborted bind on an engine failing at
position 1 with native status 5. -/
theorem C5_bind_iteration_witness :
    bindArgs okStatus errstr0
        [GoValue.null, GoValue.boolean true, GoValue.int64 7, GoValue.float64 3,
         GoValue.bytes [1, 2], GoValue.str "ab"]
      = ([BindCall.bindNull 1, BindCall.bindInt64 2 1, BindCall.bindInt64 3 7,
          BindCall.bindDouble 4 3, BindCall.bindBlob 5 [1, 2] 2,
          BindCall.bindText 6 "ab" 2], none)
    ∧ bindArgs failOnSecond errstr0 [GoValue.int64 7, GoValue.int64 9, GoValue.int64 11]
      = ([BindCall.bindInt64 1 7, BindCall.bindInt64 2 9],
         some (GoError.wrap "error binding int64 arg at position 1"
           (GoError.base "native status 5"))) := by
  constructor
  · have h := (C5_bind_iteration okStatus errstr0).1
      [GoValue.null, GoValue.boolean true, GoValue.int64 7, GoValue.float64 3,
       GoValue.bytes [1, 2], GoValue.str "ab"] (by decide) (fun _ => rfl)
    exact h.trans (by decide)
  · have h := (C5_bind_iteration failOnSecond errstr0).2
      [GoValue.int64 7] (GoValue.int64 9) [GoValue.int64 11]
      (BindCall.bindInt64 2 9) (by decide) (by decide) (by decide) (by decide)
    exact h.trans (by decide)

/-- C1: evaluation of the code at the failing input.  No path of
`rows.Next` writes to the `err` field of the cursor (first conjunct), a
fresh cursor starts with `err` nil (second), and `rows.Close` returns the
`err` field as it stands (third); hence, concretely, a cursor whose step
reports native status 5 gets a row error back from Next and yet its close
returns nil (fourth and fifth conjuncts), contradicting the claim that the
error is recorded on the cursor and re-surfaced by close. -/
theorem C1_close_returns_nil_after_row_error :
    (∀ (eng : RowEngine) (es : Int → String) (c : Cursor) (dest : List ColValue),
        ((cursorNext eng es c dest).1).err = c.err)
    ∧ (∀ q : String, (newCursor q).err = none)
    ∧ (∀ c : Cursor, (cursorClose c).2 = c.err)
    ∧ (cursorNext busyEngine errstr0 (newCursor "select v from t") []).2.2
         = StepOutcome.fail (GoError.wrap "error getting next row for query \"select v from t\""
             (GoError.base "native status 5"))
    ∧ (cursorClose ((cursorNext busyEngine errstr0 (newCursor "select v from t") []).1)).2
         = none := by
  refine ⟨?_, fun q => rfl, fun c => rfl, by decide, by decide⟩
  intro eng es c dest
  by_cases h1 : eng.step c.stepsDone = SQLITE_DONE
  · simp [cursorNext, h1]
  · by_cases h2 : eng.step c.stepsDone = SQLITE_ROW
    · cases hd : (decodeFrom eng 0 dest).2 <;>
        simp [cursorNext, h1, h2, hd, SQLITE_ROW, SQLITE_DONE]
    · simp [cursorNext, h1, h2]

/-- C2 counterexample: with a one-column row whose text column holds 3
bytes in the engine-owned buffer at native pointer 42, `rows.Next`
succeeds and the value it leaves in the destination slot is a byte slice
whose backing memory is that engine buffer — it retains a reference into
engine-owned memory and is not a copy into cursor-owned memory,
contradicting the claim. -/
theorem C2_counterexample_engine_alias :
    (cursorNext textEngine errstr0 (newCursor "select s from t") [ColValue.null]).2.1
        = [ColValue.blob (some 42) [102, 111, 111]]
    ∧ (cursorNext textEngine errstr0 (newCursor "select s from t") [ColValue.null]).2.2
        = StepOutcome.ok
    ∧ (ColValue.blob (some 42) [102, 111, 111]).aliasesEngineMemory = true := by
  refine ⟨by decide, by decide, rfl⟩

/-- C2 (amended): for every row returned by `rows.Next`, a column of
native text or blob type with positive byte length is decoded as a byte
slice that aliases the engine-owned row buffer — built by an unsafe
pointer reslice with no copy into cursor-owned memory, so it is valid only
until the next step — and a zero-length column decodes to the nil byte
slice. -/
theorem C2_text_blob_alias_no_copy (eng : RowEngine) (es : Int → String) (c : Cursor)
    (dest : List ColValue) (i : Nat)
    (hstep : eng.step c.stepsDone = SQLITE_ROW)
    (hi : i < dest.length)
    (hupto : ∀ k, k < i → recognizedType (eng.colType k))
    (ht : eng.colType i = SQLITE_BLOB ∨ eng.colType i = SQLITE_TEXT) :
    (0 < eng.colBytes i →
      ((cursorNext eng es c dest).2.1)[i]?
        = some (ColValue.blob (some (eng.colBlobPtr i)) (eng.colBlobData i)))
    ∧ (eng.colBytes i = 0 →
      ((cursorNext eng es c dest).2.1)[i]? = some (ColValue.blob none [])) := by
  have hdest := (cursorNext_row eng es c dest hstep).1
  have hsome : ∀ k, k ≤ i → (columnValue eng (0 + k)).isSome = true := by
    intro k hk
    rw [Nat.zero_add]
    rcases Nat.lt_or_ge k i with hlt | hge
    · exact (columnValue_isSome_iff eng k).mpr (hupto k hlt)
    · have hki : k = i := Nat.le_antisymm hk hge
      subst hki
      rw [columnValue_blob eng k ht]
      rfl
  have hget := decodeFrom_get_upto eng dest 0 i hi hsome
  rw [Nat.zero_add] at hget
  rw [hdest, hget, columnValue_blob eng i ht]
  constructor
  · intro hn
    simp [hn]
  · intro hz
    simp [hz]

/-- C2 witness: the amended theorem applied to the concrete engine with a
3-byte text column in the buffer at native pointer 42. -/
theorem C2_text_blob_alias_no_copy_witness :
    ((cursorNext textEngine errstr0 (newCursor "select s from t") [ColValue.null]).2.1)[0]?
      = some (ColValue.blob (some 42) [102, 111, 111]) := by
  have h := C2_text_blob_alias_no_copy textEngine errstr0 (newCursor "select s from t")
    [ColValue.null] 0 rfl (by decide) (fun k hk => absurd hk (Nat.not_lt_zero k))
    (Or.inr rfl)
  exact h.1 (by decide)

/-- C6: on every `rows.Next` call the native statement is stepped exactly
once; a SQLITE_DONE status yields io.EOF (the canonical end-of-sequence
signal, not an error) with the destination untouched; any status other
than done or row yields an error wrapping the native status and carrying
the original query text; a SQLITE_ROW status with all column types
recognized populates every destination slot by the decode table (integer
to int64, float to float64, null to the null value; text and blob slots
are settled by the C2 theorems); and a first unrecognized column type
yields the fatal unexpected-column-type error, never a silent coercion. -/
theorem C6_next_semantics (eng : RowEngine) (es : Int → String) (c : Cursor)
    (dest : List ColValue) :
    ((cursorNext eng es c dest).1).stepsDone = c.stepsDone + 1
    ∧ (eng.step c.stepsDone = SQLITE_DONE →
        cursorNext eng es c dest
          = ({ c with stepsDone := c.stepsDone + 1 }, dest, StepOutcome.eof))
    ∧ (eng.step c.stepsDone ≠ SQLITE_DONE → eng.step c.stepsDone ≠ SQLITE_ROW →
        (cursorNext eng es c dest).2.2 = StepOutcome.fail (GoError.wrap
          ("error getting next row for query \"" ++ c.query ++ "\"")
          (GoError.base (es (eng.step c.stepsDone)))))
    ∧ (eng.step c.stepsDone = SQLITE_ROW →
        (∀ k, k < dest.length → recognizedType (eng.colType k)) →
        (cursorNext eng es c dest).2.2 = StepOutcome.ok
        ∧ ((cursorNext eng es c dest).2.1).length = dest.length
        ∧ (∀ k, k < dest.length →
            ((cursorNext eng es c dest).2.1)[k]? = columnValue eng k
            ∧ (eng.colType k = SQLITE_INTEGER →
                ((cursorNext eng es c dest).2.1)[k]? = some (ColValue.int64 (eng.colInt64 k)))
            ∧ (eng.colType k = SQLITE_FLOAT →
                ((cursorNext eng es c dest).2.1)[k]? = some (ColValue.float64 (eng.colDouble k)))
            ∧ (eng.colType k = SQLITE_NULL →
                ((cursorNext eng es c dest).2.1)[k]? = some ColValue.null)))
    ∧ (eng.step c.stepsDone = SQLITE_ROW →
        ∀ j, j < dest.length → (∀ k, k < j → recognizedType (eng.colType k)) →
          ¬ recognizedType (eng.colType j) →
          (cursorNext eng es c dest).2.2 = StepOutcome.fail
            (GoError.base ("unexpected column type " ++ toString (eng.colType j)))) := by
  refine ⟨?_, ?_, ?_, ?_, ?_⟩
  · by_cases h1 : eng.step c.stepsDone = SQLITE_DONE
    · simp [cursorNext, h1]
    · by_cases h2 : eng.step c.stepsDone = SQLITE_ROW
      · cases hd : (decodeFrom eng 0 dest).2 <;>
          simp [cursorNext, h1, h2, hd, SQLITE_ROW, SQLITE_DONE]
      · simp [cursorNext, h1, h2]
  · intro h
    simp [cursorNext, h]
  · intro h1 h2
    simp [cursorNext, h1, h2, wrapErrorCode, errString]
  · intro hstep hrec
    obtain ⟨hdest, hout⟩ := cursorNext_row eng es c dest hstep
    have herr : (decodeFrom eng 0 dest).2 = none :=
      decodeFrom_err_none eng dest 0 (fun k hk => by
        rw [Nat.zero_add]
        exact (columnValue_isSome_iff eng k).mpr (hrec k hk))
    refine ⟨by rw [hout, herr], by rw [hdest]; exact decodeFrom_length eng dest 0, ?_⟩
    intro k hk
    have hget := decodeFrom_get_upto eng dest 0 k hk (fun k2 hk2 => by
      rw [Nat.zero_add]
      exact (columnValue_isSome_iff eng k2).mpr (hrec k2 (Nat.lt_of_le_of_lt hk2 hk)))
    rw [Nat.zero_add] at hget
    rw [hdest]
    refine ⟨hget, ?_, ?_, ?_⟩
    · intro hT
      rw [hget, columnValue_int eng k hT]
    · intro hT
      rw [hget, columnValue_float eng k hT]
    · intro hT
      rw [hget, columnValue_null eng k hT]
  · intro hstep j hj hlt hbad
    obtain ⟨hdest, hout⟩ := cursorNext_row eng es c dest hstep
    have hnone : columnValue eng (0 + j) = none := by
      rw [Nat.zero_add]
      cases hcv : columnValue eng j with
      | none => rfl
      | some v =>
        exact absurd ((columnValue_isSome_iff eng j).mp (by rw [hcv]; rfl)) hbad
    have hfb := decodeFrom_first_bad eng dest 0 j hj (fun k hk => by
      rw [Nat.zero_add]
      exact (columnValue_isSome_iff eng k).mpr (hlt k hk)) hnone
    rw [Nat.zero_add] at hfb
    rw [hout, hfb]

/-- C6 witness: a concrete successful row decode (integer column 42) and a
concrete failing step (native status 5), both through the C6 theorem. -/
theorem C6_next_semantics_witness :
    (cursorNext rowEngine1 errstr0 (newCursor "select a, b")
        [ColValue.null, ColValue.null]).2.2 = StepOutcome.ok
    ∧ ((cursorNext rowEngine1 errstr0 (newCursor "select a, b")
        [ColValue.null, ColValue.null]).2.1)[0]? = some (ColValue.int64 42)
    ∧ (cursorNext busyEngine errstr0 (newCursor "select a, b") [ColValue.null]).2.2
      = StepOutcome.fail (GoError.wrap "error getting next row for query \"select a, b\""
          (GoError.base "native status 5")) := by
  obtain ⟨-, -, -, h4, -⟩ := C6_next_semantics rowEngine1 errstr0 (newCursor "select a, b")
    [ColValue.null, ColValue.null]
  obtain ⟨-, -, h23, -, -⟩ := C6_next_semantics busyEngine errstr0 (newCursor "select a, b")
    [ColValue.null]
  have hrec : ∀ k, k < ([ColValue.null, ColValue.null] : List ColValue).length →
      recognizedType (rowEngine1.colType k) := by
    intro k hk
    simp at hk
    interval_cases k <;> decide
  obtain ⟨ha, -, hc⟩ := h4 rfl hrec
  refine ⟨ha, ?_, ?_⟩
  · have hk := (hc 0 (by decide)).1
    rw [hk]
    decide
  · exact (h23 (by decide) (by decide)).trans (by decide)

/-- C3: when the native open succeeds and some pragma application fails
(for any iteration order of the pragmas map, which Go leaves unspecified),
`d.Open` returns an error that names the failing pragma and wraps, through
the exec error for that pragma statement, the underlying native error —
and the native connection handle is left open: the failure path of the
pragma loop returns without calling sqlite3_close_v2. -/
theorem C3_pragma_failure_leaves_handle_open (eng : OpenEngine) (es : Int → String)
    (o : Options) (order : List String)
    (hopen : eng.openStatus = SQLITE_OK)
    (hfail : ∃ k ∈ order, eng.execStatus (pragmaQuery o k) ≠ SQLITE_OK) :
    ∃ k ∈ order, eng.execStatus (pragmaQuery o k) ≠ SQLITE_OK ∧
      dOpen eng es o order =
        { success := false,
          err := some (GoError.wrap ("error setting pragma " ++ k)
            (GoError.wrap ("error running query \"" ++ pragmaQuery o k ++ "\"")
              (GoError.base (es (eng.execStatus (pragmaQuery o k)))))),
          handleOpen := true } := by
  obtain ⟨k, hk, hbad, happ⟩ := applyPragmas_fail eng es o order hfail
  refine ⟨k, hk, hbad, ?_⟩
  simp [dOpen, hopen, happ]

/-- C3 witness: the theorem applied to a concrete engine on which exactly
the busy_timeout pragma statement fails, with the default configuration
and the source-order iteration of the three pragmas. -/
theorem C3_pragma_failure_leaves_handle_open_witness :
    ∃ k ∈ ["journal_mode", "busy_timeout", "foreign_keys"],
      openEngine1.execStatus (pragmaQuery (registerDefaults emptyOptions) k) ≠ SQLITE_OK ∧
      dOpen openEngine1 errstr0 (registerDefaults emptyOptions)
          ["journal_mode", "busy_timeout", "foreign_keys"] =
        { success := false,
          err := some (GoError.wrap ("error setting pragma " ++ k)
            (GoError.wrap ("error running query \"" ++
                pragmaQuery (registerDefaults emptyOptions) k ++ "\"")
              (GoError.base (errstr0 (openEngine1.execStatus
                (pragmaQuery (registerDefaults emptyOptions) k)))))),
          handleOpen := true } :=
  C3_pragma_failure_leaves_handle_open openEngine1 errstr0 (registerDefaults emptyOptions)
    ["journal_mode", "busy_timeout", "foreign_keys"] rfl
    ⟨"busy_timeout", by decide, by decide⟩

/-- C7: `statement.Exec` binds the values when the sequence is non-empty
(a binding failure aborts before any step, wrapped with the query text);
with binding out of the way the native statement is stepped exactly once;
a status that is neither done nor row is an exec error wrapping the native
status and the query text; done or row (the row being discarded — no row
data reaches the result) yields a result carrying the engine-wide
last-insert-rowid and change count read from the owning connection handle
immediately after the step. -/
theorem C7_exec_semantics (eng : ExecEngine) (es : Int → String) (q : String)
    (args : List GoValue) (k : Nat) :
    ((bindArgs eng.bindStatus es args).2 = none →
      (stmtExec eng es q args k).1 = k + 1)
    ∧ (∀ e, 0 < args.length → (bindArgs eng.bindStatus es args).2 = some e →
        stmtExec eng es q args k =
          (k, Except.error (GoError.wrap
            ("error binding args while executing query \"" ++ q ++ "\"") e)))
    ∧ ((bindArgs eng.bindStatus es args).2 = none →
        eng.step k ≠ SQLITE_DONE → eng.step k ≠ SQLITE_ROW →
        (stmtExec eng es q args k).2 = Except.error (GoError.wrap
          ("error executing query \"" ++ q ++ "\"") (GoError.base (es (eng.step k)))))
    ∧ ((bindArgs eng.bindStatus es args).2 = none →
        (eng.step k = SQLITE_DONE ∨ eng.step k = SQLITE_ROW) →
        (stmtExec eng es q args k).2 =
          Except.ok { lastInsertID := eng.lastInsertRowid,
                      rowsAffected := eng.changes }) := by
  refine ⟨?_, ?_, ?_, ?_⟩
  · intro hb
    by_cases hl : 0 < args.length
    · simp [stmtExec, hl, hb, stmtExecStep_fst]
    · simp [stmtExec, hl, stmtExecStep_fst]
  · intro e hl hsome
    simp [stmtExec, hl, hsome, wrapError]
  · intro hb h1 h2
    by_cases hl : 0 < args.length <;>
      simp [stmtExec, hl, hb, stmtExecStep, h1, h2, wrapErrorCode, errString]
  · intro hb hor
    have hcond : ¬(eng.step k ≠ SQLITE_DONE ∧ eng.step k ≠ SQLITE_ROW) := by
      rcases hor with h | h <;> simp [h]
    by_cases hl : 0 < args.length <;>
      simp [stmtExec, hl, hb, stmtExecStep, hcond]

/-- C7 witness: a concrete no-argument exec reading back (7, 3) on a done
status, and a concrete constraint failure (native status 19) on a bound
exec, both through the C7 theorem. -/
theorem C7_exec_semantics_witness :
    (stmtExec execEngine1 errstr0 "insert into t default values" [] 0).1 = 1
    ∧ (stmtExec execEngine1 errstr0 "insert into t default values" [] 0).2
      = Except.ok { lastInsertID := 7, rowsAffected := 3 }
    ∧ (stmtExec execEngine2 errstr0 "insert into t values (1)" [GoValue.int64 1] 0).2
      = Except.error (GoError.wrap "error executing query \"insert into t values (1)\""
          (GoError.base "native status 19")) := by
  have h1 := C7_exec_semantics execEngine1 errstr0 "insert into t default values" [] 0
  have h2 := C7_exec_semantics execEngine2 errstr0 "insert into t values (1)"
    [GoValue.int64 1] 0
  refine ⟨(h1.1 (by decide)).trans (by decide), ?_, ?_⟩
  · exact (h1.2.2.2 (by decide) (Or.inl (by decide))).trans rfl
  · exact (h2.2.2.1 (by decide) (by decide) (by decide)).trans rfl

/-- C8: with every field unset, the defaults applied by `RegisterDriver`
are registration name "sqlite", the discarding logger, journal mode
write-ahead-log, busy timeout 5 seconds (5000000000 ns), and foreign keys
enabled; the busy timeout is applied in whole milliseconds, rendering the
pragma value 5000.  The snapshot is a pure value here; in the source
nothing writes to the stored options after registration, and `d.Open`
only reads them. -/
theorem C8_registration_defaults :
    registerDefaults emptyOptions =
      { busyTimeout := some 5000000000, foreignKeys := some true,
        journalMode := "wal", logger := some LogSink.discard, name := "sqlite" }
    ∧ durationMilliseconds 5000000000 = 5000
    ∧ pragmaQuery (registerDefaults emptyOptions) "busy_timeout"
        = "pragma busy_timeout = 5000"
    ∧ pragmaQuery (registerDefaults emptyOptions) "journal_mode"
        = "pragma journal_mode = wal"
    ∧ pragmaQuery (registerDefaults emptyOptions) "foreign_keys"
        = "pragma foreign_keys = true" := by
  refine ⟨by decide, by decide, by decide, by decide, by decide⟩

/-- C9: `statement.NumInput` returns the native engine count of bindable
placeholders itself, and in particular never the -1 unknown sentinel:
sqlite3_bind_parameter_count reports a nonnegative count once the
statement is prepared. -/
theorem C9_numInput_reports_engine_count (n : Nat) :
    numInput n = Int.ofNat n ∧ numInput n ≠ -1 := by
  constructor
  · rfl
  · intro h
    simp [numInput] at h

/-- C10: `connection.Begin` panics unconditionally with the message
"implement Begin", never returning a transaction (or an error), and the
connection state is unmodified before the panic. -/
theorem C10_begin_always_panics (c : Connection) :
    connectionBegin c = (c, PanicOr.panics "implement Begin")
    ∧ (∀ t : Tx, (connectionBegin c).2 ≠ PanicOr.value t)
    ∧ (connectionBegin c).1 = c := by
  refine ⟨rfl, ?_, rfl⟩
  intro t h
  simp [connectionBegin] at h

end Sqlite
